import Mathlib

/-!
Verification of the EcommerceAI marketplace (Django app `ecommerceBook`)
against its natural-language specification.

The relevant Python code is shallowly embedded below:

* `SiteSettings.get_commission_amount` / `get_seller_amount`
  (accounts/models.py) — Python `Decimal` values are modelled as `ℚ`;
  `Decimal.quantize(Decimal('0.01'))` with the default context rounds
  half-to-even, modelled by `roundHalfEvenCents`.
* `Order.generate_order_number` (accounts/models.py) — the database is
  modelled as the list of existing order-number strings; the random
  fallback draws from an explicit stream of naturals.
* `purchase_product` (accounts/views.py) — the Stripe checkout-session
  builder for a single product.
* `purchase_success_callback` (accounts/views.py) — the settlement
  callback; the Django ORM state is an explicit `St` record, the Stripe
  session an explicit `Session` record, and `stripe.Transfer.create`
  failures an oracle `Nat → Bool` indexed by seller id.
-/

namespace Ecom

/-! ### Decimal arithmetic (accounts/models.py, SiteSettings) -/

/-- Kernel-computable floor of a rational: numerator Euclidean-divided by
the (positive) denominator. Agrees with `⌊·⌋` (see `ratFloor_eq`). -/
def ratFloor (q : ℚ) : ℤ := q.num / (q.den : ℤ)

/-- Python `int()` applied to a `Decimal`: truncation toward zero. -/
def pyInt (q : ℚ) : ℤ := Int.tdiv q.num (q.den : ℤ)

/-- Round a rational to the nearest integer, ties to even: the behaviour of
Python `Decimal.quantize` under the default context rounding
`ROUND_HALF_EVEN`. -/
def roundHalfEvenInt (q : ℚ) : ℤ :=
  let n : ℤ := ratFloor q
  let f : ℚ := q - (n : ℚ)
  if f < 1/2 then n
  else if 1/2 < f then n + 1
  else if n % 2 = 0 then n else n + 1

/-- `x.quantize(Decimal('0.01'))`: round to 2 decimal places, half to even. -/
def quantizeCents (q : ℚ) : ℚ := (roundHalfEvenInt (q * 100) : ℚ) / 100

/-- `SiteSettings.get_commission_amount(total_amount)`:
`0.00` when `commission_enabled` is false, otherwise
`((total_amount * commission_percentage) / 100).quantize('0.01')`.
The multiplication and division are exact for `DecimalField` values
(well within the 28-digit context precision), so `ℚ` models them exactly. -/
def get_commission_amount (commission_enabled : Bool)
    (commission_percentage total_amount : ℚ) : ℚ :=
  if commission_enabled = false then 0
  else quantizeCents (total_amount * commission_percentage / 100)

/-- `SiteSettings.get_seller_amount(total_amount)`:
`total_amount - get_commission_amount(total_amount)`. -/
def get_seller_amount (commission_enabled : Bool)
    (commission_percentage total_amount : ℚ) : ℚ :=
  total_amount - get_commission_amount commission_enabled commission_percentage total_amount

/-- Modelled from the spec (not the code): `round_half_up` to 2 decimal
places — ties are rounded away from zero (up, for nonnegative amounts).
Used only to compare the spec's claimed rounding mode with the code's. -/
def roundHalfUpCents (q : ℚ) : ℚ :=
  ((ratFloor (q * 100 + 1/2) : ℤ) : ℚ) / 100

/-! ### `Order.generate_order_number` (accounts/models.py)

String operations are modelled structurally over `List Char` (Python's
`str.split`, `int`, `str.startswith` and decimal f-string formatting),
so that every definition evaluates by kernel reduction. -/

/-- Python `s.split('-')` on a character list. -/
def splitDash : List Char → List (List Char)
  | [] => [[]]
  | c :: rest =>
    if c = '-' then [] :: splitDash rest
    else
      match splitDash rest with
      | [] => [[c]]
      | h :: t => (c :: h) :: t

/-- Python `int(s)` restricted to unsigned decimal digit strings;
anything else raises `ValueError`, modelled as `none`. -/
def parseNat (cs : List Char) : Option Nat :=
  if cs ≠ [] ∧ cs.all Char.isDigit then
    some (cs.foldl (fun a c => a * 10 + (c.toNat - 48)) 0)
  else none

/-- `f"ORD-{year}-{month}-"`. -/
def monthStem (year month : String) : String :=
  "ORD-" ++ year ++ "-" ++ month ++ "-"

/-- `f"{n:06d}"`: decimal digits of `n`, left-padded with zeros to a
minimum width of 6 (wider numbers keep all their digits). -/
def pad6 (n : Nat) : String :=
  let s := Nat.toDigits 10 n
  String.mk (List.replicate (6 - s.length) '0' ++ s)

/-- A candidate order number `f"ORD-{year}-{month}-{n:06d}"`. -/
def mkOrderNumber (year month : String) (n : Nat) : String :=
  monthStem year month ++ pad6 n

/-- `int(order_num.split('-')[-1])`, with parse failures skipped
(the `except (ValueError, IndexError): continue`). -/
def seqOf (s : String) : Option Nat :=
  match (splitDash s.data).getLast? with
  | some t => parseNat t
  | none => none

/-- The `max_seq` scan over existing order numbers of the current month:
filter by the month prefix (`order_number__startswith`) and fold `max`
over the parsed tails (starting from 0, as in the Python loop). -/
def maxSeq (existing : List String) (pre : String) : Nat :=
  (existing.filter (fun s => pre.data.isPrefixOf s.data)).foldl
    (fun m s => match seqOf s with | some k => max m k | none => m) 0

/-- The sequential attempt loop: try `next`, `next+1`, … while the
candidate collides with an existing number, up to `fuel` attempts
(`max_attempts = 100`). -/
def seqTry (existing : List String) (year month : String) :
    Nat → Nat → Option String
  | _, 0 => none
  | next, fuel + 1 =>
    let cand := mkOrderNumber year month next
    if cand ∈ existing then seqTry existing year month (next + 1) fuel
    else some cand

/-- The random fallback loop: each provided draw `r` models one
`random.randint(1, 999999)` outcome as `1 + r % 999999`; at most
`max_fallback_attempts = 1000` draws are consumed. -/
def randTry (existing : List String) (year month : String) :
    List Nat → Option String
  | [] => none
  | r :: rs =>
    let cand := mkOrderNumber year month (1 + r % 999999)
    if cand ∈ existing then randTry existing year month rs
    else some cand

/-- `Order.generate_order_number`, over the list of existing order
numbers in the database and a stream `rands` of random draws.
`next_seq` is the parsed monthly maximum plus one (1 when the month has
no parseable numbers, matching the `else` branch); then 100 sequential
attempts, then up to 1000 random attempts, then `ValueError`. -/
def generate_order_number (existing : List String) (year month : String)
    (rands : List Nat) : Except String String :=
  match seqTry existing year month
      (maxSeq existing (monthStem year month) + 1) 100 with
  | some s => .ok s
  | none =>
    match randTry existing year month (rands.take 1000) with
    | some s => .ok s
    | none => .error "Unable to generate unique order number after multiple attempts"

/-- The format the claim asserts: `ORD-YYYY-MM-NNNNNN` with an exactly
6-digit, zero-padded sequence for the given year and month. -/
def matchesSixDigitFormat (year month : String) (s : String) : Bool :=
  match splitDash s.data with
  | [o, y, m, seq] =>
    o = "ORD".data && y = year.data && m = month.data
      && seq.length = 6 && seq.all Char.isDigit
  | _ => false

/-! ### Checkout and settlement data model (accounts/views.py)

The Django ORM rows touched by `purchase_product` and
`purchase_success_callback` are modelled as explicit lists in a state
record `St`; the Stripe checkout session is a `Session` record carrying
the metadata embedded at build time. -/

/-- One entry of the `cart_items` JSON embedded in a cart session's
metadata at build time (`purchase_cart` in accounts/views.py). -/
structure CartItemData where
  content_type_id : Nat
  object_id : Nat
  quantity : Nat
  price : ℚ
  seller_id : Option Nat
  deriving DecidableEq, Repr

/-- The metadata of a checkout session, fixed at session-build time. -/
inductive SessionMeta where
  /-- `purchase_type == 'single'`: `user_id`, `product_type`,
  `product_id`, `seller_id` from the metadata, plus the unit price that
  was embedded in the session's Stripe line item at build time
  (`price_data.unit_amount`, in dollars), which the metadata dict itself
  does not carry. -/
  | single (user_id : Nat) (product_type : String) (product_id : Nat)
      (seller_id : Option Nat) (builtUnitPrice : ℚ)
  /-- `purchase_type == 'cart'`: `user_id` and the decoded `cart_items`. -/
  | cart (user_id : Nat) (cart_items : List CartItemData)
  deriving DecidableEq, Repr

/-- `int(checkout_session.metadata.get('user_id'))`. -/
def SessionMeta.userId : SessionMeta → Nat
  | .single u _ _ _ _ => u
  | .cart u _ => u

/-- A retrieved Stripe checkout session. -/
structure Session where
  id : String
  payment_status : String
  meta : SessionMeta

/-- A live product row (Book / Course / Webinar / Service), as read at
settlement time; `price` is the CURRENT price, which may differ from any
price embedded in a session built earlier. -/
structure LiveProduct where
  ptype : String
  content_type_id : Nat
  id : Nat
  seller_id : Nat
  price : ℚ
  deriving DecidableEq, Repr

/-- An `Order` row. -/
structure Order where
  id : Nat
  user_id : Nat
  order_number : String
  total_amount : ℚ
  status : String
  stripe_session_id : Option String
  deriving DecidableEq, Repr

/-- An `OrderItem` row. -/
structure OrderItem where
  order_id : Nat
  content_type_id : Nat
  object_id : Nat
  quantity : Nat
  price : ℚ
  deriving DecidableEq, Repr

/-- A `Notification` row (fields relevant here). -/
structure Notification where
  user_id : Nat
  notification_type : String
  title : String
  deriving DecidableEq, Repr

/-- One call made to `stripe.Transfer.create` during settlement;
`succeeded := false` records a call that raised `StripeError`. -/
structure TransferAttempt where
  seller_id : Nat
  amount_cents : ℤ
  succeeded : Bool
  deriving DecidableEq, Repr

/-- A live `CartItem` row of the buyer's cart at settlement time. -/
structure CartLine where
  content_type_id : Nat
  object_id : Nat
  quantity : Nat
  deriving DecidableEq, Repr

/-- The mutable database state touched by settlement. -/
structure St where
  orders : List Order
  orderItems : List OrderItem
  notifications : List Notification
  transfers : List TransferAttempt
  serviceChats : List (Nat × Nat × Nat)
  cartLines : List CartLine
  nextOrderId : Nat
  deriving Repr

/-- Read-only environment: the product tables and each user's
`stripe_account_id` (sellers referenced by sessions are assumed to be
existing `User` rows). -/
structure Db where
  products : List LiveProduct
  sellerAccount : Nat → Option String

/-- The `SiteSettings` singleton fields used by checkout/settlement. -/
structure SiteSettingsM where
  commission_enabled : Bool
  commission_percentage : ℚ
  platform_stripe_account_id : Option String

/-- `Book/Course/Webinar/Service.objects.get(id=...)` dispatched on the
`product_type` string. -/
def findProductByType (db : Db) (t : String) (i : Nat) : Option LiveProduct :=
  db.products.find? (fun p => p.ptype == t && p.id == i)

/-- `ContentType.objects.get_for_id(ct).get_object_for_this_type(id=i)`. -/
def findProductByCt (db : Db) (ct i : Nat) : Option LiveProduct :=
  db.products.find? (fun p => p.content_type_id == ct && p.id == i)

/-- The observable outcome of `purchase_success_callback`. -/
inductive CbResult where
  /-- `'Payment was not completed'`, redirect to the dashboard. -/
  | notPaid
  /-- `'Invalid payment session'` (metadata user mismatch). -/
  | invalidSession
  /-- `'Order #.. was already processed'`, redirect to orders. -/
  | alreadyProcessed (order_number : String)
  /-- success, redirect to orders (or to the service chat). -/
  | ok (order_number : String)
  /-- an exception reached the outer `except` handler. -/
  | errored
  deriving DecidableEq, Repr

/-- The `purchase_type == 'single'` branch of the callback. The created
`OrderItem` stores `product.price` — the price re-read from the LIVE
product row — not the unit price embedded at session-build time. -/
def settleSingle (db : Db) (st : St) (userId : Nat) (sessId genNumber : String)
    (ptype : String) (pid : Nat) (sellerIdMeta : Option Nat) : St × CbResult :=
  if (ptype == "book" || ptype == "course" || ptype == "webinar"
      || ptype == "service") = false then
    (st, .errored)
  else
    match findProductByType db ptype pid with
    | none => (st, .errored)
    | some p =>
      let order : Order :=
        { id := st.nextOrderId, user_id := userId, order_number := genNumber,
          total_amount := p.price, status := "completed",
          stripe_session_id := some sessId }
      let item : OrderItem :=
        { order_id := order.id, content_type_id := p.content_type_id,
          object_id := p.id, quantity := 1, price := p.price }
      let sellerNotifs : List Notification :=
        if sellerIdMeta.isSome then
          [{ user_id := p.seller_id, notification_type := "new_sale",
             title := "New Sale!" }]
        else []
      let st1 : St :=
        { st with
          orders := st.orders ++ [order],
          orderItems := st.orderItems ++ [item],
          notifications := st.notifications
            ++ [{ user_id := userId, notification_type := "order_created",
                  title := "Order Placed Successfully!" }]
            ++ sellerNotifs,
          nextOrderId := st.nextOrderId + 1 }
      if ptype == "service" then
        if st1.serviceChats.contains (userId, p.seller_id, p.id) then
          (st1, .ok genNumber)
        else
          ({ st1 with
             serviceChats := st1.serviceChats ++ [(userId, p.seller_id, p.id)],
             notifications := st1.notifications
               ++ [{ user_id := userId, notification_type := "order_created",
                     title := "Chat Opened!" }] },
           .ok genNumber)
      else (st1, .ok genNumber)

/-- The `OrderItem` created for one embedded cart line: `price` is frozen
from the metadata (`Decimal(item_data['price'])`). -/
def mkCartOrderItem (orderId : Nat) (d : CartItemData) : OrderItem :=
  { order_id := orderId, content_type_id := d.content_type_id,
    object_id := d.object_id, quantity := d.quantity, price := d.price }

/-- Accumulator of the per-item loop of the cart branch. -/
structure CartLoopAcc where
  st : St
  notified : List Nat
  chatsCreated : List (Nat × Nat × Nat)
  ok : Bool

/-- One iteration body of the cart item loop over a found product `p`:
create the `OrderItem` from the embedded line, `get_or_create` a
`ServiceChat` for service products, and notify the line's seller if not
yet notified. -/
def cartStep (buyer orderId : Nat) (d : CartItemData) (p : LiveProduct)
    (acc : CartLoopAcc) : CartLoopAcc :=
  let chatNew : Bool :=
    p.ptype == "service"
      && !(acc.st.serviceChats.contains (buyer, p.seller_id, p.id))
  let doNotify : Bool :=
    match d.seller_id with
    | some sid => !(acc.notified.contains sid)
    | none => false
  { st :=
      { acc.st with
        orderItems := acc.st.orderItems ++ [mkCartOrderItem orderId d],
        serviceChats := acc.st.serviceChats
          ++ (if chatNew then [(buyer, p.seller_id, p.id)] else []),
        notifications := acc.st.notifications
          ++ (if doNotify then
                [{ user_id := d.seller_id.getD 0,
                   notification_type := "new_sale",
                   title := "New Sale!" }]
              else []) },
    notified := acc.notified
      ++ (if doNotify then [d.seller_id.getD 0] else []),
    chatsCreated := acc.chatsCreated
      ++ (if chatNew then [(buyer, p.seller_id, p.id)] else []),
    ok := true }

/-- The per-item loop of the cart branch: look up the live product
(`DoesNotExist` aborts the loop, leaving already-created rows behind),
then run `cartStep`. -/
def cartItemsLoop (db : Db) (buyer orderId : Nat) :
    List CartItemData → CartLoopAcc → CartLoopAcc
  | [], acc => acc
  | d :: rest, acc =>
    if acc.ok = false then acc
    else
      match findProductByCt db d.content_type_id d.object_id with
      | none => { acc with ok := false }
      | some p => cartItemsLoop db buyer orderId rest (cartStep buyer orderId d p acc)

/-- `seller_totals`: group embedded cart lines by `seller_id` in first
occurrence order, summing `price * quantity`. -/
def addTotal (sid : Nat) (amt : ℚ) : List (Nat × ℚ) → List (Nat × ℚ)
  | [] => [(sid, amt)]
  | (s, t) :: rest =>
    if s == sid then (s, t + amt) :: rest else (s, t) :: addTotal sid amt rest

/-- Totals per seller over the embedded cart lines. -/
def sellerTotals (items : List CartItemData) : List (Nat × ℚ) :=
  items.foldl
    (fun acc d =>
      match d.seller_id with
      | some sid => addTotal sid (d.price * (d.quantity : ℚ)) acc
      | none => acc)
    []

/-- `seller_payout` in cents for one seller's total:
`int((seller_total - commission) * 100)`. -/
def payoutCents (settings : SiteSettingsM) (total : ℚ) : ℤ :=
  pyInt ((total - get_commission_amount settings.commission_enabled
    settings.commission_percentage total) * 100)

/-- Whether a `stripe.Transfer.create` call is made for a seller:
`seller_payout_cents > 0 and seller.stripe_account_id`. -/
def transferEligible (db : Db) (settings : SiteSettingsM)
    (e : Nat × ℚ) : Bool :=
  (0 < payoutCents settings e.2 : Bool) && (db.sellerAccount e.1).isSome

/-- The calls made to `stripe.Transfer.create` by the per-seller payout
loop. `failOracle sid = true` means the call raises `StripeError` for
that seller: the attempt is recorded as failed and the loop continues
with the next seller. -/
def transferAttempts (db : Db) (settings : SiteSettingsM)
    (failOracle : Nat → Bool) (sellers : List (Nat × ℚ)) :
    List TransferAttempt :=
  sellers.filterMap (fun e =>
    if transferEligible db settings e then
      some { seller_id := e.1, amount_cents := payoutCents settings e.2,
             succeeded := !(failOracle e.1) }
    else none)

/-- The seller notifications created by the payout loop: on success
`'Payment Received!'`, on a `StripeError` one of the payout-problem
notifications (all are `new_sale`-typed for the seller; the variant
depends only on the error message). -/
def transferNotifs (db : Db) (settings : SiteSettingsM)
    (failOracle : Nat → Bool) (sellers : List (Nat × ℚ)) :
    List Notification :=
  sellers.filterMap (fun e =>
    if transferEligible db settings e then
      some { user_id := e.1, notification_type := "new_sale",
             title := if failOracle e.1 then "New Sale! (Payout Pending)"
                      else "Payment Received!" }
    else none)

/-- The per-seller payout loop of the cart branch: each iteration only
appends a transfer attempt and a seller notification (an ineligible
seller is only logged); a failed transfer changes nothing else and the
loop always continues with the next seller. -/
def transferLoop (db : Db) (settings : SiteSettingsM) (failOracle : Nat → Bool)
    (sellers : List (Nat × ℚ)) (st : St) : St :=
  { st with
    transfers := st.transfers ++ transferAttempts db settings failOracle sellers,
    notifications := st.notifications
      ++ transferNotifs db settings failOracle sellers }

/-- `sum(Decimal(item['price']) * item['quantity'] for item in
cart_items_data)`: the order total from the embedded lines. -/
def cartTotal (items : List CartItemData) : ℚ :=
  items.foldl (fun a d => a + d.price * (d.quantity : ℚ)) 0

/-- The `purchase_type == 'cart'` branch of the callback: order and
items are built strictly from the embedded metadata, then the payout
loop runs (commission enabled implies the session is paid here), then
buyer notifications, then `cart.items.all().delete()` — which removes
EVERY line of the buyer's cart, not only the settled ones. -/
def settleCart (db : Db) (settings : SiteSettingsM) (failOracle : Nat → Bool)
    (st : St) (userId : Nat) (sessId genNumber : String)
    (items : List CartItemData) : St × CbResult :=
  let order : Order :=
    { id := st.nextOrderId, user_id := userId, order_number := genNumber,
      total_amount := cartTotal items, status := "completed",
      stripe_session_id := some sessId }
  let st1 : St :=
    { st with orders := st.orders ++ [order], nextOrderId := st.nextOrderId + 1 }
  let acc := cartItemsLoop db userId order.id items
    { st := st1, notified := [], chatsCreated := [], ok := true }
  if acc.ok = false then (acc.st, .errored)
  else
    let st2 := if settings.commission_enabled then
        transferLoop db settings failOracle (sellerTotals items) acc.st
      else acc.st
    let st3 : St :=
      { st2 with
        notifications := st2.notifications
          ++ [{ user_id := userId, notification_type := "order_created",
                title := "Order Placed Successfully!" }]
          ++ acc.chatsCreated.map (fun _ =>
              { user_id := userId, notification_type := "order_created",
                title := "Service Chat Opened!" }) }
    ({ st3 with cartLines := [] }, .ok genNumber)

/-- `purchase_success_callback` (accounts/views.py): verify the provider
payment status, verify the requesting user against the embedded
metadata, return any existing order for this session unchanged, and
otherwise settle according to the embedded purchase kind. `genNumber` is
the order number produced by `Order.generate_order_number`. -/
def purchase_success_callback (db : Db) (settings : SiteSettingsM)
    (failOracle : Nat → Bool) (requestUserId : Nat) (sess : Session)
    (genNumber : String) (st : St) : St × CbResult :=
  if (sess.payment_status == "paid") = false then (st, .notPaid)
  else if (sess.meta.userId == requestUserId) = false then (st, .invalidSession)
  else
    match st.orders.find? (fun o =>
        o.user_id == requestUserId && o.stripe_session_id == some sess.id) with
    | some o => (st, .alreadyProcessed o.order_number)
    | none =>
      match sess.meta with
      | .single _ ptype pid sellerIdMeta _ =>
        settleSingle db st requestUserId sess.id genNumber ptype pid sellerIdMeta
      | .cart _ items =>
        settleCart db settings failOracle st requestUserId sess.id genNumber items

/-- The number of `Order` rows in a list recorded against a given
provider checkout session id. -/
def countSess (l : List Order) (s : String) : Nat :=
  (l.filter (fun o => o.stripe_session_id == some s)).length

/-- The number of `Order` rows recorded against a given provider checkout
session id. -/
def sessionOrderCount (st : St) (s : String) : Nat :=
  countSess st.orders s

/-- The `stripe.Transfer.create` calls visible in a state, stripped of
their success flag: which sellers were attempted and for how much. -/
def attemptedTransfers (st : St) : List (Nat × ℤ) :=
  st.transfers.map (fun t => (t.seller_id, t.amount_cents))

/-! ### Checkout-session builder for a single product (accounts/views.py) -/

/-- The parts of the built Stripe checkout session relevant to the
commission split. `payment_intent_data` is
`(application_fee_amount, transfer_data.destination)` when present. -/
structure BuiltSession where
  unit_amount_cents : ℤ
  commission_amount : ℚ
  payment_intent_data : Option (ℤ × String)
  deriving DecidableEq, Repr

/-- The outcome of `purchase_product`: an early `messages.error` redirect,
or a created checkout session, `warned := true` when the
`'Platform payment account not configured'` warning was emitted. -/
inductive BuildOut where
  | redirected (msg : String)
  | session (s : BuiltSession) (warned : Bool)
  deriving DecidableEq, Repr

/-- `purchase_product` (accounts/views.py), from the own-product check on:
with commission enabled, a positive commission and a seller payee account
but NO platform payee id, it logs/warns and STILL creates the session —
with no `payment_intent_data`, hence no commission split and no transfer
to the seller. -/
def purchase_product (settings : SiteSettingsM) (requestUserId productSellerId : Nat)
    (sellerAccount : Option String) (price : ℚ) : BuildOut :=
  if requestUserId == productSellerId then
    .redirected "You cannot purchase your own product"
  else
    match sellerAccount with
    | none =>
      .redirected "This seller has not set up their payment account yet. Please try again later."
    | some account =>
      let commission := get_commission_amount settings.commission_enabled
        settings.commission_percentage price
      let commissionCents := pyInt (commission * 100)
      let base : BuiltSession :=
        { unit_amount_cents := pyInt (price * 100),
          commission_amount := commission, payment_intent_data := none }
      if settings.commission_enabled ∧ 0 < commissionCents then
        match settings.platform_stripe_account_id with
        | none => .session base true
        | some _ =>
          .session { base with payment_intent_data := some (commissionCents, account) } false
      else .session base false

end Ecom

/-! ### Theorems -/

/-- `ratFloor` agrees with the mathematical floor. -/
theorem ratFloor_eq (q : ℚ) : Ecom.ratFloor q = ⌊q⌋ := Rat.floor_def.symm

/-- `roundHalfEvenInt` lands within 1/2 of its argument. -/
theorem roundHalfEvenInt_close (q : ℚ) : |(Ecom.roundHalfEvenInt q : ℚ) - q| ≤ 1/2 := by
  have h0 : (⌊q⌋ : ℚ) ≤ q := Int.floor_le q
  have h1 : q < (⌊q⌋ : ℚ) + 1 := Int.lt_floor_add_one q
  simp only [Ecom.roundHalfEvenInt, ratFloor_eq]
  split_ifs <;> (rw [abs_le]; constructor <;> (push_cast; linarith))

/-- `quantizeCents` lands within half a cent of its argument. -/
theorem quantizeCents_close (q : ℚ) : |Ecom.quantizeCents q - q| ≤ 1/200 := by
  have h := roundHalfEvenInt_close (q * 100)
  unfold Ecom.quantizeCents
  rw [show (Ecom.roundHalfEvenInt (q * 100) : ℚ) / 100 - q
        = ((Ecom.roundHalfEvenInt (q * 100) : ℚ) - q * 100) / 100 by ring,
      abs_div]
  have h100 : |(100 : ℚ)| = 100 := by norm_num
  rw [h100]
  calc |(Ecom.roundHalfEvenInt (q * 100) : ℚ) - q * 100| / 100
      ≤ (1/2) / 100 := by gcongr
    _ = 1/200 := by norm_num

/-- C1: for every gross `g ≥ 0` and every commission policy (any enabled
flag, any percentage in `[0,100]`), `get_commission_amount g +
get_seller_amount g = g` exactly: the payout is gross minus the already
rounded commission, with no independent rounding. -/
theorem C1_commission_plus_payout_eq_gross
    (enabled : Bool) (pct g : ℚ)
    (hg : 0 ≤ g) (hp0 : 0 ≤ pct) (hp1 : pct ≤ 100) :
    Ecom.get_commission_amount enabled pct g
      + Ecom.get_seller_amount enabled pct g = g := by
  unfold Ecom.get_seller_amount
  ring

theorem C1_witness :
    (0 : ℚ) ≤ 10 ∧ (0:ℚ) ≤ 20 ∧ (20:ℚ) ≤ 100 ∧
    Ecom.get_commission_amount true 20 10
      + Ecom.get_seller_amount true 20 10 = 10 :=
  ⟨by norm_num, by norm_num, by norm_num,
    C1_commission_plus_payout_eq_gross true 20 10 (by norm_num) (by norm_num) (by norm_num)⟩

/-- C7 counterexample: the claim says the enabled commission is rounded
half-UP; but `Decimal.quantize` rounds half-to-even, and at gross `0.50`
with percentage `1` the exact commission `0.005` rounds to `0.00` in the
code while half-up gives `0.01`. -/
theorem C7_claim_counterexample :
    ¬ (Ecom.get_commission_amount true 1 (1/2)
        = Ecom.roundHalfUpCents ((1/2) * 1 / 100)) := by
  with_unfolding_all decide

/-- C7 (amended): when the policy is enabled, `get_commission_amount g`
is `g * percentage / 100` rounded half-to-EVEN (banker's rounding, the
Python `Decimal.quantize` default) to 2 decimal places — hence within half
a cent of the exact value — and when the policy is disabled the result is
exactly `0.00` regardless of the percentage. -/
theorem C7_amended_commission_rounding (pct g : ℚ) (hg : 0 ≤ g) :
    (Ecom.get_commission_amount true pct g
        = Ecom.quantizeCents (g * pct / 100)
      ∧ |Ecom.get_commission_amount true pct g - g * pct / 100| ≤ 1/200)
    ∧ Ecom.get_commission_amount false pct g = 0 := by
  refine ⟨⟨?_, ?_⟩, rfl⟩
  · unfold Ecom.get_commission_amount
    rw [show g * pct = pct * g by ring]
    simp
  · have h := quantizeCents_close (g * pct / 100)
    unfold Ecom.get_commission_amount
    rw [show g * pct = pct * g by ring] at h ⊢
    simpa using h

theorem C7_witness :
    (0 : ℚ) ≤ 10 ∧
    ((Ecom.get_commission_amount true 20 10
        = Ecom.quantizeCents (10 * 20 / 100)
      ∧ |Ecom.get_commission_amount true 20 10 - 10 * 20 / 100| ≤ 1/200)
    ∧ Ecom.get_commission_amount false 20 10 = 0) :=
  ⟨by norm_num, C7_amended_commission_rounding 20 10 (by norm_num)⟩

/-- `f"{n:06d}"` always has at least 6 characters. -/
theorem pad6_length (n : Nat) : 6 ≤ (Ecom.pad6 n).length := by
  show 6 ≤ (List.replicate (6 - (Nat.toDigits 10 n).length) '0'
      ++ Nat.toDigits 10 n).length
  rw [List.length_append, List.length_replicate]
  omega

/-- A successful sequential attempt returns a fresh number of the
candidate form, with sequence at least the starting value. -/
theorem seqTry_ok (existing : List String) (year month : String) :
    ∀ fuel next s, Ecom.seqTry existing year month next fuel = some s →
      s ∉ existing ∧ ∃ n, next ≤ n ∧ s = Ecom.mkOrderNumber year month n := by
  intro fuel
  induction fuel with
  | zero => intro next s h; simp [Ecom.seqTry] at h
  | succ k ih =>
    intro next s h
    simp only [Ecom.seqTry] at h
    by_cases hmem : Ecom.mkOrderNumber year month next ∈ existing
    · rw [if_pos hmem] at h
      obtain ⟨hs, n, hn, hform⟩ := ih (next + 1) s h
      exact ⟨hs, n, by omega, hform⟩
    · rw [if_neg hmem] at h
      cases h
      exact ⟨hmem, next, le_refl _, rfl⟩

/-- A successful random attempt returns a fresh number of the candidate
form, with a sequence in `[1, 999999]`. -/
theorem randTry_ok (existing : List String) (year month : String) :
    ∀ rs s, Ecom.randTry existing year month rs = some s →
      s ∉ existing ∧ ∃ n, 1 ≤ n ∧ s = Ecom.mkOrderNumber year month n := by
  intro rs
  induction rs with
  | nil => intro s h; simp [Ecom.randTry] at h
  | cons r rest ih =>
    intro s h
    simp only [Ecom.randTry] at h
    by_cases hmem : Ecom.mkOrderNumber year month (1 + r % 999999) ∈ existing
    · rw [if_pos hmem] at h
      exact ih s h
    · rw [if_neg hmem] at h
      cases h
      exact ⟨hmem, 1 + r % 999999, by omega, rfl⟩

/-- C6 counterexample, two parts. Format: with `ORD-2025-10-999999`
already taken, the generator returns `ORD-2025-10-1000000`, whose
sequence part has 7 digits — it does not match the claimed
`ORD-YYYY-MM-NNNNNN` format with a 6-digit sequence. Concurrency: the
generator only reads the existing numbers and returns a string, it
inserts nothing, so two concurrent callers in the same month that both
generate before either saves an `Order` see the same existing list (here
`[]`, and with independent random streams, `[]` vs `[17]`) and receive
the IDENTICAL number `ORD-2025-11-000001` — the numbers handed to
concurrent callers are not all distinct. -/
theorem C6_claim_counterexample :
    (Ecom.generate_order_number ["ORD-2025-10-999999"] "2025" "10" []
        = .ok "ORD-2025-10-1000000"
      ∧ Ecom.matchesSixDigitFormat "2025" "10" "ORD-2025-10-1000000" = false)
    ∧ (Ecom.generate_order_number [] "2025" "11" []
        = Ecom.generate_order_number [] "2025" "11" [17]
      ∧ Ecom.generate_order_number [] "2025" "11" []
        = .ok "ORD-2025-11-000001") :=
  ⟨⟨rfl, by decide⟩, rfl, rfl⟩

/-- C6 (amended): every string returned by `generate_order_number` is
`ORD-YYYY-MM-` followed by the sequence zero-padded to AT LEAST 6 digits
(7 or more once the monthly sequence passes 999999), with sequence at
least 1, and is distinct from every order number existing at the time of
the call; when neither the 100 sequential attempts nor the 1000 random
attempts find a free number, the function returns the `ValueError`
rather than looping forever. -/
theorem C6_amended_order_number_generation
    (existing : List String) (year month : String) (rands : List Nat) :
    (∃ s n, Ecom.generate_order_number existing year month rands = .ok s
      ∧ s ∉ existing ∧ 1 ≤ n ∧ s = Ecom.mkOrderNumber year month n
      ∧ 6 ≤ (Ecom.pad6 n).length)
    ∨ Ecom.generate_order_number existing year month rands
        = .error "Unable to generate unique order number after multiple attempts" := by
  unfold Ecom.generate_order_number
  split
  · next s hseq =>
    obtain ⟨hs, n, hn, hform⟩ := seqTry_ok existing year month 100 _ s hseq
    exact Or.inl ⟨s, n, rfl, hs, by omega, hform, pad6_length n⟩
  · next hseq =>
    split
    · next s hrand =>
      obtain ⟨hs, n, hn, hform⟩ := randTry_ok existing year month _ s hrand
      exact Or.inl ⟨s, n, rfl, hs, hn, hform, pad6_length n⟩
    · next hrand => exact Or.inr rfl

/-- C4: for every checkout session whose provider-reported status is not
`'paid'`, the settlement callback performs no state change at all and
reports the not-completed error: it is a no-op. -/
theorem C4_unpaid_session_no_op
    (db : Ecom.Db) (settings : Ecom.SiteSettingsM) (failOracle : Nat → Bool)
    (u : Nat) (sess : Ecom.Session) (gen : String) (st : Ecom.St)
    (h : sess.payment_status ≠ "paid") :
    Ecom.purchase_success_callback db settings failOracle u sess gen st
      = (st, Ecom.CbResult.notPaid) := by
  unfold Ecom.purchase_success_callback
  have hb : (sess.payment_status == "paid") = false := beq_eq_false_iff_ne.mpr h
  rw [hb]
  simp

theorem C4_witness :
    (Ecom.Session.mk "cs_4" "unpaid"
        (.single 1 "book" 1 (some 2) 10)).payment_status ≠ "paid"
    ∧ Ecom.purchase_success_callback ⟨[], fun _ => none⟩ ⟨true, 20, none⟩
        (fun _ => false) 1
        (Ecom.Session.mk "cs_4" "unpaid" (.single 1 "book" 1 (some 2) 10)) "g"
        ⟨[], [], [], [], [], [], 0⟩
      = (⟨[], [], [], [], [], [], 0⟩, Ecom.CbResult.notPaid) :=
  ⟨by decide, C4_unpaid_session_no_op _ _ _ _ _ _ _ (by decide)⟩

/-- C10: if the authenticated user invoking the settlement callback is
not the buyer recorded in the session's embedded metadata, the callback
performs no state change and reports an invalid-session error. -/
theorem C10_user_mismatch_no_op
    (db : Ecom.Db) (settings : Ecom.SiteSettingsM) (failOracle : Nat → Bool)
    (u : Nat) (sess : Ecom.Session) (gen : String) (st : Ecom.St)
    (hp : sess.payment_status = "paid")
    (hu : sess.meta.userId ≠ u) :
    Ecom.purchase_success_callback db settings failOracle u sess gen st
      = (st, Ecom.CbResult.invalidSession) := by
  unfold Ecom.purchase_success_callback
  have hb : (sess.payment_status == "paid") = true := beq_iff_eq.mpr hp
  have hn : (sess.meta.userId == u) = false := beq_eq_false_iff_ne.mpr hu
  rw [hb, hn]
  simp

theorem C10_witness :
    (Ecom.Session.mk "cs_10" "paid"
        (.single 2 "book" 1 (some 3) 10)).payment_status = "paid"
    ∧ (Ecom.Session.mk "cs_10" "paid"
        (.single 2 "book" 1 (some 3) 10)).meta.userId ≠ 1
    ∧ Ecom.purchase_success_callback ⟨[], fun _ => none⟩ ⟨true, 20, none⟩
        (fun _ => false) 1
        (Ecom.Session.mk "cs_10" "paid" (.single 2 "book" 1 (some 3) 10)) "g"
        ⟨[], [], [], [], [], [], 0⟩
      = (⟨[], [], [], [], [], [], 0⟩, Ecom.CbResult.invalidSession) :=
  ⟨by decide, by decide, C10_user_mismatch_no_op _ _ _ _ _ _ _ (by decide) (by decide)⟩

/-! #### Helper lemmas about the settlement branches -/

/-- A paid cart session for the metadata user, with no existing order
for the session, reduces to the cart branch. -/
theorem callback_cart_reduces
    (db : Ecom.Db) (settings : Ecom.SiteSettingsM) (f : Nat → Bool)
    (u : Nat) (sid gen : String) (st : Ecom.St) (items : List Ecom.CartItemData)
    (hfind : st.orders.find? (fun o =>
        o.user_id == u && o.stripe_session_id == some sid) = none) :
    Ecom.purchase_success_callback db settings f u ⟨sid, "paid", .cart u items⟩ gen st
      = Ecom.settleCart db settings f st u sid gen items := by
  unfold Ecom.purchase_success_callback
  simp [Ecom.SessionMeta.userId, hfind]

/-- A paid single session for the metadata user, with no existing order
for the session, reduces to the single branch. -/
theorem callback_single_reduces
    (db : Ecom.Db) (settings : Ecom.SiteSettingsM) (f : Nat → Bool)
    (u : Nat) (sid gen t : String) (pid : Nat) (sm : Option Nat) (bp : ℚ)
    (st : Ecom.St)
    (hfind : st.orders.find? (fun o =>
        o.user_id == u && o.stripe_session_id == some sid) = none) :
    Ecom.purchase_success_callback db settings f u
        ⟨sid, "paid", .single u t pid sm bp⟩ gen st
      = Ecom.settleSingle db st u sid gen t pid sm := by
  unfold Ecom.purchase_success_callback
  simp [Ecom.SessionMeta.userId, hfind]

/-- A paid session for the metadata user with an existing order for the
session returns the state unchanged and acknowledges some existing
order. -/
theorem callback_found_reduces
    (db : Ecom.Db) (settings : Ecom.SiteSettingsM) (f : Nat → Bool)
    (u : Nat) (sess : Ecom.Session) (gen : String) (st : Ecom.St)
    (o : Ecom.Order)
    (hp : sess.payment_status = "paid") (hm : sess.meta.userId = u)
    (hfind : st.orders.find? (fun o =>
        o.user_id == u && o.stripe_session_id == some sess.id) = some o) :
    Ecom.purchase_success_callback db settings f u sess gen st
      = (st, .alreadyProcessed o.order_number) := by
  unfold Ecom.purchase_success_callback
  have hb : (sess.payment_status == "paid") = true := beq_iff_eq.mpr hp
  have hmb : (sess.meta.userId == u) = true := beq_iff_eq.mpr hm
  rw [hb, hmb]
  simp [hfind]

/-- The cart item loop never touches orders, transfers, cart lines or
the order-id counter. -/
theorem cartItemsLoop_frame (db : Ecom.Db) (buyer orderId : Nat)
    (items : List Ecom.CartItemData) :
    ∀ acc : Ecom.CartLoopAcc,
      (Ecom.cartItemsLoop db buyer orderId items acc).st.orders = acc.st.orders
      ∧ (Ecom.cartItemsLoop db buyer orderId items acc).st.transfers
          = acc.st.transfers
      ∧ (Ecom.cartItemsLoop db buyer orderId items acc).st.cartLines
          = acc.st.cartLines
      ∧ (Ecom.cartItemsLoop db buyer orderId items acc).st.nextOrderId
          = acc.st.nextOrderId := by
  induction items with
  | nil => intro acc; simp [Ecom.cartItemsLoop]
  | cons d rest ih =>
    intro acc
    simp only [Ecom.cartItemsLoop]
    split
    · exact ⟨rfl, rfl, rfl, rfl⟩
    · split
      · exact ⟨rfl, rfl, rfl, rfl⟩
      · obtain ⟨h1, h2, h3, h4⟩ := ih _
        exact ⟨h1, h2, h3, h4⟩

/-- When every embedded line's product exists, the cart item loop
succeeds and appends exactly one `OrderItem` per embedded line, with the
embedded price. -/
theorem cartItemsLoop_items_spec (db : Ecom.Db) (buyer orderId : Nat)
    (items : List Ecom.CartItemData) :
    ∀ acc : Ecom.CartLoopAcc, acc.ok = true →
      (∀ d ∈ items,
        (Ecom.findProductByCt db d.content_type_id d.object_id).isSome = true) →
      (Ecom.cartItemsLoop db buyer orderId items acc).ok = true
      ∧ (Ecom.cartItemsLoop db buyer orderId items acc).st.orderItems
          = acc.st.orderItems ++ items.map (Ecom.mkCartOrderItem orderId) := by
  induction items with
  | nil => intro acc hok _; simpa [Ecom.cartItemsLoop] using hok
  | cons d rest ih =>
    intro acc hok hall
    obtain ⟨p, hp⟩ := Option.isSome_iff_exists.mp (hall d (by simp))
    simp only [Ecom.cartItemsLoop, hok, hp]
    rw [if_neg (by simp : ¬ (true = false))]
    obtain ⟨hok', hitems⟩ := ih (Ecom.cartStep buyer orderId d p acc) rfl
      (fun d' hd' => hall d' (by simp [hd']))
    refine ⟨hok', ?_⟩
    rw [hitems]
    simp [Ecom.cartStep]

/-- The cart branch always records exactly one new `Order`, with status
`completed` and the session id, whether or not the item loop aborts. -/
theorem settleCart_orders
    (db : Ecom.Db) (settings : Ecom.SiteSettingsM) (f : Nat → Bool)
    (st : Ecom.St) (u : Nat) (sid gen : String) (items : List Ecom.CartItemData) :
    (Ecom.settleCart db settings f st u sid gen items).1.orders
      = st.orders ++ [{ id := st.nextOrderId, user_id := u, order_number := gen,
                        total_amount := Ecom.cartTotal items,
                        status := "completed",
                        stripe_session_id := some sid }] := by
  simp only [Ecom.settleCart]
  split
  · exact (cartItemsLoop_frame db u st.nextOrderId items _).1
  · split
    · exact (cartItemsLoop_frame db u st.nextOrderId items _).1
    · exact (cartItemsLoop_frame db u st.nextOrderId items _).1

/-- When every embedded line's product exists, the cart branch succeeds:
items come from the embedded lines, the cart is fully cleared, and the
transfer attempts are those of the payout loop (when commission is
enabled). -/
theorem settleCart_ok_fields
    (db : Ecom.Db) (settings : Ecom.SiteSettingsM) (f : Nat → Bool)
    (st : Ecom.St) (u : Nat) (sid gen : String) (items : List Ecom.CartItemData)
    (hall : ∀ d ∈ items,
      (Ecom.findProductByCt db d.content_type_id d.object_id).isSome = true) :
    (Ecom.settleCart db settings f st u sid gen items).2 = .ok gen
    ∧ (Ecom.settleCart db settings f st u sid gen items).1.orderItems
        = st.orderItems ++ items.map (Ecom.mkCartOrderItem st.nextOrderId)
    ∧ (Ecom.settleCart db settings f st u sid gen items).1.cartLines = []
    ∧ (Ecom.settleCart db settings f st u sid gen items).1.transfers
        = st.transfers ++ (if settings.commission_enabled then
            Ecom.transferAttempts db settings f (Ecom.sellerTotals items) else []) := by
  obtain ⟨hok, hitems⟩ := cartItemsLoop_items_spec db u st.nextOrderId items
    ⟨{ st with
       orders := st.orders ++ [{ id := st.nextOrderId, user_id := u,
                                 order_number := gen,
                                 total_amount := Ecom.cartTotal items,
                                 status := "completed",
                                 stripe_session_id := some sid }],
       nextOrderId := st.nextOrderId + 1 }, [], [], true⟩ rfl hall
  have hfr := cartItemsLoop_frame db u st.nextOrderId items
    ⟨{ st with
       orders := st.orders ++ [{ id := st.nextOrderId, user_id := u,
                                 order_number := gen,
                                 total_amount := Ecom.cartTotal items,
                                 status := "completed",
                                 stripe_session_id := some sid }],
       nextOrderId := st.nextOrderId + 1 }, [], [], true⟩
  simp only [Ecom.settleCart, hok]
  rw [if_neg (by simp : ¬ (true = false))]
  refine ⟨rfl, ?_, rfl, ?_⟩
  · cases hen : settings.commission_enabled with
    | false => rw [if_neg (by simp [hen])]; exact hitems
    | true => rw [if_pos (by simp [hen])]; exact hitems
  · cases hen : settings.commission_enabled with
    | false =>
      rw [if_neg (by simp [hen]), if_neg (by simp [hen])]
      rw [List.append_nil]
      exact hfr.2.1
    | true =>
      rw [if_pos (by simp [hen]), if_pos (by simp [hen])]
      show (Ecom.cartItemsLoop _ _ _ _ _).st.transfers ++ _ = _
      rw [hfr.2.1]

/-- The single branch adds at most one order, always completed and tied
to the session id. -/
theorem settleSingle_orders
    (db : Ecom.Db) (st : Ecom.St) (u : Nat) (sid gen t : String)
    (pid : Nat) (sm : Option Nat) :
    ∃ tail, (Ecom.settleSingle db st u sid gen t pid sm).1.orders
        = st.orders ++ tail
      ∧ tail.length ≤ 1
      ∧ ∀ o ∈ tail, o.stripe_session_id = some sid ∧ o.status = "completed" := by
  simp only [Ecom.settleSingle]
  split
  · exact ⟨[], by simp, by simp, by simp⟩
  · split
    · exact ⟨[], by simp, by simp, by simp⟩
    · next p hp =>
      refine ⟨[{ id := st.nextOrderId, user_id := u, order_number := gen,
                 total_amount := p.price, status := "completed",
                 stripe_session_id := some sid }], ?_, by simp, by simp⟩
      split
      · split <;> rfl
      · rfl

/-- The single branch never touches the buyer's cart lines. -/
theorem settleSingle_cartLines
    (db : Ecom.Db) (st : Ecom.St) (u : Nat) (sid gen t : String)
    (pid : Nat) (sm : Option Nat) :
    (Ecom.settleSingle db st u sid gen t pid sm).1.cartLines = st.cartLines := by
  simp only [Ecom.settleSingle]
  split
  · rfl
  · split
    · rfl
    · split
      · split <;> rfl
      · rfl

/-- On a valid product type with an existing product, the single branch
stores the product's LIVE price in the created `OrderItem`. -/
theorem settleSingle_items
    (db : Ecom.Db) (st : Ecom.St) (u : Nat) (sid gen t : String)
    (pid : Nat) (sm : Option Nat) (p : Ecom.LiveProduct)
    (hvalid : (t == "book" || t == "course" || t == "webinar"
        || t == "service") = true)
    (hp : Ecom.findProductByType db t pid = some p) :
    (Ecom.settleSingle db st u sid gen t pid sm).1.orderItems
      = st.orderItems ++ [{ order_id := st.nextOrderId,
                            content_type_id := p.content_type_id,
                            object_id := p.id,
                            quantity := 1, price := p.price }]
    ∧ (Ecom.settleSingle db st u sid gen t pid sm).2 = .ok gen := by
  simp only [Ecom.settleSingle, hvalid, hp]
  rw [if_neg (by simp : ¬ (true = false))]
  constructor
  · split
    · split <;> rfl
    · rfl
  · split
    · split <;> rfl
    · rfl

/-- Session counts add over concatenation. -/
theorem countSess_append (l1 l2 : List Ecom.Order) (s : String) :
    Ecom.countSess (l1 ++ l2) s = Ecom.countSess l1 s + Ecom.countSess l2 s := by
  simp [Ecom.countSess, List.filter_append]

/-- A list none of whose orders carries the session id counts zero. -/
theorem countSess_eq_zero (l : List Ecom.Order) (s : String)
    (h : ∀ o ∈ l, ¬ o.stripe_session_id = some s) :
    Ecom.countSess l s = 0 := by
  unfold Ecom.countSess
  rw [List.length_eq_zero]
  rw [List.filter_eq_nil]
  intro o ho
  simpa using h o ho

/-- The count never exceeds the list length. -/
theorem countSess_le_length (l : List Ecom.Order) (s : String) :
    Ecom.countSess l s ≤ l.length :=
  List.length_filter_le _ l

/-- Which sellers get a `stripe.Transfer.create` call, and for how much,
does not depend on which calls fail. -/
theorem transferAttempts_oracle_eq (db : Ecom.Db) (settings : Ecom.SiteSettingsM)
    (f g : Nat → Bool) (sellers : List (Nat × ℚ)) :
    (Ecom.transferAttempts db settings f sellers).map
        (fun t => (t.seller_id, t.amount_cents))
      = (Ecom.transferAttempts db settings g sellers).map
        (fun t => (t.seller_id, t.amount_cents)) := by
  induction sellers with
  | nil => rfl
  | cons e rest ih =>
    simp only [Ecom.transferAttempts, List.filterMap_cons] at ih ⊢
    cases he : Ecom.transferEligible db settings e with
    | false => simpa [he] using ih
    | true => simpa [he] using ih

/-- C2: at most one `Order` ever exists per provider checkout session id
(assuming every order already recorded for the session belongs to the
session's metadata buyer, as only that buyer can pass the user check),
and invoking settlement again for an already-settled paid session
changes nothing and merely acknowledges the existing order. -/
theorem C2_at_most_one_order_per_session
    (db : Ecom.Db) (settings : Ecom.SiteSettingsM) (f : Nat → Bool)
    (u : Nat) (sess : Ecom.Session) (gen : String) (st : Ecom.St)
    (hbelong : ∀ o ∈ st.orders, o.stripe_session_id = some sess.id →
        o.user_id = sess.meta.userId)
    (hcount : Ecom.sessionOrderCount st sess.id ≤ 1) :
    Ecom.sessionOrderCount
        (Ecom.purchase_success_callback db settings f u sess gen st).1 sess.id ≤ 1
    ∧ (sess.payment_status = "paid" → sess.meta.userId = u →
        (∃ o ∈ st.orders, o.user_id = u ∧ o.stripe_session_id = some sess.id) →
        (Ecom.purchase_success_callback db settings f u sess gen st).1 = st
        ∧ ∃ n, (Ecom.purchase_success_callback db settings f u sess gen st).2
            = Ecom.CbResult.alreadyProcessed n) := by
  obtain ⟨sid, ps, meta⟩ := sess
  simp only [Ecom.sessionOrderCount] at hcount ⊢
  constructor
  · by_cases hps : ps = "paid"
    case neg =>
      unfold Ecom.purchase_success_callback
      simp only [beq_eq_false_iff_ne.mpr hps]
      simpa using hcount
    case pos =>
      subst hps
      by_cases hum : meta.userId = u
      case neg =>
        unfold Ecom.purchase_success_callback
        simp only [beq_eq_false_iff_ne.mpr hum, beq_self_eq_true]
        simpa using hcount
      case pos =>
        cases hfind : st.orders.find? (fun o =>
            o.user_id == u && o.stripe_session_id == some sid) with
        | some o =>
          rw [callback_found_reduces db settings f u ⟨sid, "paid", meta⟩ gen st o
            rfl hum hfind]
          simpa using hcount
        | none =>
          have hzero : Ecom.countSess st.orders sid = 0 := by
            apply countSess_eq_zero
            intro o ho hsid
            have h1 := List.find?_eq_none.mp hfind o ho
            apply h1
            have hou : o.user_id = u := (hbelong o ho hsid).trans hum
            simp [hou, hsid]
          cases meta with
          | cart u2 items =>
            have hu2 : u2 = u := by simpa [Ecom.SessionMeta.userId] using hum
            subst hu2
            rw [callback_cart_reduces db settings f u2 sid gen st items hfind]
            rw [settleCart_orders, countSess_append, hzero]
            simpa using countSess_le_length _ sid
          | single u2 t pid sm bp =>
            have hu2 : u2 = u := by simpa [Ecom.SessionMeta.userId] using hum
            subst hu2
            rw [callback_single_reduces db settings f u2 sid gen t pid sm bp st hfind]
            obtain ⟨tail, htail, hlen, hall⟩ :=
              settleSingle_orders db st u2 sid gen t pid sm
            rw [htail, countSess_append, hzero]
            have h2 := le_trans (countSess_le_length tail sid) hlen
            omega
  · rintro hp hm ⟨o, ho, hou, hos⟩
    have hsome : (st.orders.find? (fun o =>
        o.user_id == u && o.stripe_session_id == some sid)).isSome := by
      rw [List.find?_isSome]
      exact ⟨o, ho, by simp [hou, hos]⟩
    obtain ⟨o', ho'⟩ := Option.isSome_iff_exists.mp hsome
    rw [callback_found_reduces db settings f u ⟨sid, ps, meta⟩ gen st o' hp hm ho']
    exact ⟨rfl, o'.order_number, rfl⟩

theorem C2_witness :
    (∀ o ∈ ([{ id := 0, user_id := 1, order_number := "ORD-2025-10-000001",
               total_amount := (10 : ℚ), status := "completed",
               stripe_session_id := some "cs_2" }] : List Ecom.Order),
        o.stripe_session_id
            = some (Ecom.Session.mk "cs_2" "paid" (.cart 1 [])).id →
        o.user_id = (Ecom.Session.mk "cs_2" "paid" (.cart 1 [])).meta.userId)
    ∧ Ecom.sessionOrderCount
        ⟨[{ id := 0, user_id := 1, order_number := "ORD-2025-10-000001",
            total_amount := (10 : ℚ), status := "completed",
            stripe_session_id := some "cs_2" }], [], [], [], [], [], 1⟩
        (Ecom.Session.mk "cs_2" "paid" (.cart 1 [])).id ≤ 1
    ∧ (Ecom.sessionOrderCount
        (Ecom.purchase_success_callback ⟨[], fun _ => none⟩ ⟨true, 20, none⟩
          (fun _ => false) 1 (Ecom.Session.mk "cs_2" "paid" (.cart 1 [])) "g"
          ⟨[{ id := 0, user_id := 1, order_number := "ORD-2025-10-000001",
              total_amount := (10 : ℚ), status := "completed",
              stripe_session_id := some "cs_2" }], [], [], [], [], [], 1⟩).1
        (Ecom.Session.mk "cs_2" "paid" (.cart 1 [])).id ≤ 1
      ∧ ((Ecom.Session.mk "cs_2" "paid" (.cart 1 [])).payment_status = "paid" →
          (Ecom.Session.mk "cs_2" "paid" (.cart 1 [])).meta.userId = 1 →
          (∃ o ∈ Ecom.St.orders
              ⟨[{ id := 0, user_id := 1, order_number := "ORD-2025-10-000001",
                  total_amount := (10 : ℚ), status := "completed",
                  stripe_session_id := some "cs_2" }], [], [], [], [], [], 1⟩,
            o.user_id = 1 ∧ o.stripe_session_id
              = some (Ecom.Session.mk "cs_2" "paid" (.cart 1 [])).id) →
          (Ecom.purchase_success_callback ⟨[], fun _ => none⟩ ⟨true, 20, none⟩
            (fun _ => false) 1 (Ecom.Session.mk "cs_2" "paid" (.cart 1 [])) "g"
            ⟨[{ id := 0, user_id := 1, order_number := "ORD-2025-10-000001",
                total_amount := (10 : ℚ), status := "completed",
                stripe_session_id := some "cs_2" }], [], [], [], [], [], 1⟩).1
            = ⟨[{ id := 0, user_id := 1, order_number := "ORD-2025-10-000001",
                  total_amount := (10 : ℚ), status := "completed",
                  stripe_session_id := some "cs_2" }], [], [], [], [], [], 1⟩
          ∧ ∃ n, (Ecom.purchase_success_callback ⟨[], fun _ => none⟩
              ⟨true, 20, none⟩ (fun _ => false) 1
              (Ecom.Session.mk "cs_2" "paid" (.cart 1 [])) "g"
              ⟨[{ id := 0, user_id := 1, order_number := "ORD-2025-10-000001",
                  total_amount := (10 : ℚ), status := "completed",
                  stripe_session_id := some "cs_2" }], [], [], [], [], [], 1⟩).2
              = Ecom.CbResult.alreadyProcessed n)) :=
  ⟨by with_unfolding_all decide, by with_unfolding_all decide,
    C2_at_most_one_order_per_session _ _ _ _ _ _ _
      (by with_unfolding_all decide) (by with_unfolding_all decide)⟩

/-- C5 counterexample: a single-kind session built when the product cost
10 (the embedded line-item unit price) settles after the live price
changed to 20 — the created `OrderItem` stores 20, the price re-read
from the live product, not the embedded 10. -/
theorem C5_claim_counterexample :
    (Ecom.purchase_success_callback
        ⟨[{ ptype := "book", content_type_id := 7, id := 1, seller_id := 2,
            price := 20 }], fun _ => none⟩
        ⟨true, 20, none⟩ (fun _ => false) 1
        ⟨"cs_5", "paid", .single 1 "book" 1 (some 2) 10⟩ "ORD-5"
        ⟨[], [], [], [], [], [], 0⟩).1.orderItems.map Ecom.OrderItem.price
      = [20]
    ∧ ((20 : ℚ) = 10 → False) :=
  ⟨by with_unfolding_all decide, by with_unfolding_all decide⟩

/-- C5 (amended): only CART settlements freeze prices from the session's
embedded metadata — each created `OrderItem` stores the embedded line's
price; a SINGLE settlement stores the product's live price as read at
settlement time (ignoring the unit price embedded at build time). -/
theorem C5_amended_price_provenance
    (db : Ecom.Db) (settings : Ecom.SiteSettingsM) (f : Nat → Bool)
    (u : Nat) (sid gen : String) (st : Ecom.St) :
    (∀ items : List Ecom.CartItemData,
      st.orders.find? (fun o =>
          o.user_id == u && o.stripe_session_id == some sid) = none →
      (∀ d ∈ items,
        (Ecom.findProductByCt db d.content_type_id d.object_id).isSome = true) →
      (Ecom.purchase_success_callback db settings f u
          ⟨sid, "paid", .cart u items⟩ gen st).1.orderItems
        = st.orderItems ++ items.map (Ecom.mkCartOrderItem st.nextOrderId))
    ∧ (∀ (t : String) (pid : Nat) (sm : Option Nat) (bp : ℚ)
          (p : Ecom.LiveProduct),
      st.orders.find? (fun o =>
          o.user_id == u && o.stripe_session_id == some sid) = none →
      (t == "book" || t == "course" || t == "webinar" || t == "service") = true →
      Ecom.findProductByType db t pid = some p →
      (Ecom.purchase_success_callback db settings f u
          ⟨sid, "paid", .single u t pid sm bp⟩ gen st).1.orderItems
        = st.orderItems ++ [{ order_id := st.nextOrderId,
                              content_type_id := p.content_type_id,
                              object_id := p.id,
                              quantity := 1, price := p.price }]) := by
  constructor
  · intro items hfind hall
    rw [callback_cart_reduces db settings f u sid gen st items hfind]
    exact (settleCart_ok_fields db settings f st u sid gen items hall).2.1
  · intro t pid sm bp p hfind hvalid hp
    rw [callback_single_reduces db settings f u sid gen t pid sm bp st hfind]
    exact (settleSingle_items db st u sid gen t pid sm p hvalid hp).1

theorem C5_witness :
    (([] : List Ecom.Order).find? (fun o =>
        o.user_id == 1 && o.stripe_session_id == some "cs_5w") = none
    ∧ (∀ d ∈ ([{ content_type_id := 7, object_id := 1, quantity := 2,
                 price := (5 : ℚ), seller_id := some 2 }] :
            List Ecom.CartItemData),
        (Ecom.findProductByCt
          ⟨[{ ptype := "book", content_type_id := 7, id := 1, seller_id := 2,
              price := 5 }], fun _ => none⟩
          d.content_type_id d.object_id).isSome = true)
    ∧ (Ecom.purchase_success_callback
        ⟨[{ ptype := "book", content_type_id := 7, id := 1, seller_id := 2,
            price := 5 }], fun _ => none⟩
        ⟨false, 20, none⟩ (fun _ => false) 1
        ⟨"cs_5w", "paid",
          .cart 1 [{ content_type_id := 7, object_id := 1, quantity := 2,
                     price := (5 : ℚ), seller_id := some 2 }]⟩ "g"
        ⟨[], [], [], [], [], [], 3⟩).1.orderItems
      = Ecom.St.orderItems ⟨[], [], [], [], [], [], 3⟩
        ++ ([{ content_type_id := 7, object_id := 1, quantity := 2,
               price := (5 : ℚ), seller_id := some 2 }] :
            List Ecom.CartItemData).map (Ecom.mkCartOrderItem 3))
    ∧ ((([] : List Ecom.Order).find? (fun o =>
        o.user_id == 1 && o.stripe_session_id == some "cs_5w") = none)
    ∧ ("book" == "book" || "book" == "course" || "book" == "webinar"
        || "book" == "service") = true
    ∧ Ecom.findProductByType
        ⟨[{ ptype := "book", content_type_id := 7, id := 1, seller_id := 2,
            price := 5 }], fun _ => none⟩ "book" 1
        = some { ptype := "book", content_type_id := 7, id := 1,
                 seller_id := 2, price := 5 }
    ∧ (Ecom.purchase_success_callback
        ⟨[{ ptype := "book", content_type_id := 7, id := 1, seller_id := 2,
            price := 5 }], fun _ => none⟩
        ⟨false, 20, none⟩ (fun _ => false) 1
        ⟨"cs_5w", "paid", .single 1 "book" 1 (some 2) 5⟩ "g"
        ⟨[], [], [], [], [], [], 3⟩).1.orderItems
      = Ecom.St.orderItems ⟨[], [], [], [], [], [], 3⟩
        ++ [{ order_id := 3, content_type_id := 7, object_id := 1,
              quantity := 1, price := (5 : ℚ) }]) :=
  ⟨⟨by with_unfolding_all decide, by with_unfolding_all decide,
    (C5_amended_price_provenance
      ⟨[{ ptype := "book", content_type_id := 7,
          id := 1, seller_id := 2, price := 5 }], fun _ => none⟩
      ⟨false, 20, none⟩ (fun _ => false) 1 "cs_5w" "g"
      ⟨[], [], [], [], [], [], 3⟩).1 _
      (by with_unfolding_all decide) (by with_unfolding_all decide)⟩,
   ⟨by with_unfolding_all decide, by with_unfolding_all decide,
    by with_unfolding_all decide,
    (C5_amended_price_provenance
      ⟨[{ ptype := "book", content_type_id := 7,
          id := 1, seller_id := 2, price := 5 }], fun _ => none⟩
      ⟨false, 20, none⟩ (fun _ => false) 1 "cs_5w" "g"
      ⟨[], [], [], [], [], [], 3⟩).2 "book" 1 (some 2) 5
      { ptype := "book", content_type_id := 7, id := 1, seller_id := 2,
        price := 5 }
      (by with_unfolding_all decide) (by with_unfolding_all decide)
      (by with_unfolding_all decide)⟩⟩

/-- C9 counterexample: a cart line (`content_type 8, object 2`) added
after the checkout session was built — and therefore absent from the
settled line items — does NOT survive settlement: the callback runs
`cart.items.all().delete()` and the post-settlement cart is empty. -/
theorem C9_claim_counterexample :
    (Ecom.purchase_success_callback
        ⟨[{ ptype := "book", content_type_id := 7, id := 1, seller_id := 2,
            price := 5 }], fun _ => none⟩
        ⟨false, 20, none⟩ (fun _ => false) 1
        ⟨"cs_9", "paid",
          .cart 1 [{ content_type_id := 7, object_id := 1, quantity := 1,
                     price := (5 : ℚ), seller_id := some 2 }]⟩ "ORD-9"
        ⟨[], [], [], [], [],
          [{ content_type_id := 7, object_id := 1, quantity := 1 },
           { content_type_id := 8, object_id := 2, quantity := 1 }],
          0⟩).1.cartLines = []
    ∧ ({ content_type_id := 8, object_id := 2, quantity := 1 } : Ecom.CartLine)
        ∈ Ecom.St.cartLines
            ⟨[], [], [], [], [],
              [{ content_type_id := 7, object_id := 1, quantity := 1 },
               { content_type_id := 8, object_id := 2, quantity := 1 }], 0⟩ :=
  ⟨by with_unfolding_all decide, by with_unfolding_all decide⟩

/-- C9 (amended): a successful cart settlement clears ALL the buyer's
cart lines (including lines added after the session was built), and a
single-kind settlement never removes any cart line. -/
theorem C9_amended_cart_clearing
    (db : Ecom.Db) (settings : Ecom.SiteSettingsM) (f : Nat → Bool)
    (u : Nat) (sid gen : String) (st : Ecom.St) :
    (∀ items : List Ecom.CartItemData,
      st.orders.find? (fun o =>
          o.user_id == u && o.stripe_session_id == some sid) = none →
      (∀ d ∈ items,
        (Ecom.findProductByCt db d.content_type_id d.object_id).isSome = true) →
      (Ecom.purchase_success_callback db settings f u
          ⟨sid, "paid", .cart u items⟩ gen st).1.cartLines = [])
    ∧ (∀ (u2 : Nat) (ps t : String) (pid : Nat) (sm : Option Nat) (bp : ℚ),
      (Ecom.purchase_success_callback db settings f u
          ⟨sid, ps, .single u2 t pid sm bp⟩ gen st).1.cartLines
        = st.cartLines) := by
  constructor
  · intro items hfind hall
    rw [callback_cart_reduces db settings f u sid gen st items hfind]
    exact (settleCart_ok_fields db settings f st u sid gen items hall).2.2.1
  · intro u2 ps t pid sm bp
    unfold Ecom.purchase_success_callback
    by_cases hps : ps = "paid"
    case neg => simp [beq_eq_false_iff_ne.mpr hps]
    case pos =>
      subst hps
      by_cases hu2 : u2 = u
      case neg =>
        simp [Ecom.SessionMeta.userId, beq_eq_false_iff_ne.mpr hu2]
      case pos =>
        subst hu2
        cases hfind : st.orders.find? (fun o =>
            o.user_id == u2 && o.stripe_session_id == some sid) with
        | some o => simp [Ecom.SessionMeta.userId, hfind]
        | none =>
          simp only [Ecom.SessionMeta.userId, hfind, beq_self_eq_true]
          simpa using settleSingle_cartLines db st u2 sid gen t pid sm

theorem C9_witness :
    (([] : List Ecom.Order).find? (fun o =>
        o.user_id == 1 && o.stripe_session_id == some "cs_9w") = none
    ∧ (∀ d ∈ ([{ content_type_id := 7, object_id := 1, quantity := 1,
                 price := (5 : ℚ), seller_id := some 2 }] :
            List Ecom.CartItemData),
        (Ecom.findProductByCt
          ⟨[{ ptype := "book", content_type_id := 7, id := 1, seller_id := 2,
              price := 5 }], fun _ => none⟩
          d.content_type_id d.object_id).isSome = true)
    ∧ (Ecom.purchase_success_callback
        ⟨[{ ptype := "book", content_type_id := 7, id := 1, seller_id := 2,
            price := 5 }], fun _ => none⟩
        ⟨false, 20, none⟩ (fun _ => false) 1
        ⟨"cs_9w", "paid",
          .cart 1 [{ content_type_id := 7, object_id := 1, quantity := 1,
                     price := (5 : ℚ), seller_id := some 2 }]⟩ "g"
        ⟨[], [], [], [], [],
          [{ content_type_id := 8, object_id := 2, quantity := 1 }],
          0⟩).1.cartLines = [])
    ∧ (Ecom.purchase_success_callback
        ⟨[{ ptype := "book", content_type_id := 7, id := 1, seller_id := 2,
            price := 5 }], fun _ => none⟩
        ⟨false, 20, none⟩ (fun _ => false) 1
        ⟨"cs_9w", "unpaid", .single 1 "book" 1 (some 2) 5⟩ "g"
        ⟨[], [], [], [], [],
          [{ content_type_id := 8, object_id := 2, quantity := 1 }],
          0⟩).1.cartLines
      = Ecom.St.cartLines
          ⟨[], [], [], [], [],
            [{ content_type_id := 8, object_id := 2, quantity := 1 }], 0⟩ :=
  ⟨⟨by with_unfolding_all decide, by with_unfolding_all decide,
    (C9_amended_cart_clearing
      ⟨[{ ptype := "book", content_type_id := 7, id := 1, seller_id := 2,
          price := 5 }], fun _ => none⟩
      ⟨false, 20, none⟩ (fun _ => false) 1 "cs_9w" "g"
      ⟨[], [], [], [], [],
        [{ content_type_id := 8, object_id := 2, quantity := 1 }], 0⟩).1 _
      (by with_unfolding_all decide) (by with_unfolding_all decide)⟩,
   (C9_amended_cart_clearing
      ⟨[{ ptype := "book", content_type_id := 7, id := 1, seller_id := 2,
          price := 5 }], fun _ => none⟩
      ⟨false, 20, none⟩ (fun _ => false) 1 "cs_9w" "g"
      ⟨[], [], [], [], [],
        [{ content_type_id := 8, object_id := 2, quantity := 1 }], 0⟩).2
      1 "unpaid" "book" 1 (some 2) 5⟩

/-- C8: in a successful cart settlement, the created Order (status
`completed`) and its OrderItems do not depend on which seller transfers
fail — nothing is rolled back — and the set of attempted transfers
(seller, amount) is the same under any failure pattern: one seller's
`StripeError` does not prevent the other sellers' transfer attempts. -/
theorem C8_transfer_failures_isolated
    (db : Ecom.Db) (settings : Ecom.SiteSettingsM) (f g : Nat → Bool)
    (u : Nat) (sid gen : String) (st : Ecom.St) (items : List Ecom.CartItemData)
    (hfind : st.orders.find? (fun o =>
        o.user_id == u && o.stripe_session_id == some sid) = none)
    (hall : ∀ d ∈ items,
      (Ecom.findProductByCt db d.content_type_id d.object_id).isSome = true) :
    (Ecom.purchase_success_callback db settings f u
        ⟨sid, "paid", .cart u items⟩ gen st).1.orders
      = st.orders ++ [{ id := st.nextOrderId, user_id := u, order_number := gen,
                        total_amount := Ecom.cartTotal items,
                        status := "completed",
                        stripe_session_id := some sid }]
    ∧ (Ecom.purchase_success_callback db settings f u
          ⟨sid, "paid", .cart u items⟩ gen st).1.orderItems
        = (Ecom.purchase_success_callback db settings g u
            ⟨sid, "paid", .cart u items⟩ gen st).1.orderItems
    ∧ Ecom.attemptedTransfers
        (Ecom.purchase_success_callback db settings f u
          ⟨sid, "paid", .cart u items⟩ gen st).1
      = Ecom.attemptedTransfers
          (Ecom.purchase_success_callback db settings g u
            ⟨sid, "paid", .cart u items⟩ gen st).1
    ∧ (Ecom.purchase_success_callback db settings f u
        ⟨sid, "paid", .cart u items⟩ gen st).2 = .ok gen := by
  rw [callback_cart_reduces db settings f u sid gen st items hfind,
      callback_cart_reduces db settings g u sid gen st items hfind]
  obtain ⟨hresf, hitemsf, hclf, htrf⟩ :=
    settleCart_ok_fields db settings f st u sid gen items hall
  obtain ⟨hresg, hitemsg, hclg, htrg⟩ :=
    settleCart_ok_fields db settings g st u sid gen items hall
  refine ⟨settleCart_orders db settings f st u sid gen items, ?_, ?_, hresf⟩
  · rw [hitemsf, hitemsg]
  · unfold Ecom.attemptedTransfers
    rw [htrf, htrg, List.map_append, List.map_append]
    congr 1
    cases hen : settings.commission_enabled with
    | false => simp
    | true =>
      simp only [if_pos rfl]
      exact transferAttempts_oracle_eq db settings f g (Ecom.sellerTotals items)

theorem C8_witness :
    (([] : List Ecom.Order).find? (fun o =>
        o.user_id == 1 && o.stripe_session_id == some "cs_8") = none
    ∧ (∀ d ∈ ([{ content_type_id := 7, object_id := 1, quantity := 1,
                 price := (10 : ℚ), seller_id := some 2 }] :
            List Ecom.CartItemData),
        (Ecom.findProductByCt
          ⟨[{ ptype := "book", content_type_id := 7, id := 1, seller_id := 2,
              price := 10 }], fun n => if n == 2 then some "acct_2" else none⟩
          d.content_type_id d.object_id).isSome = true))
    ∧ ((Ecom.purchase_success_callback
        ⟨[{ ptype := "book", content_type_id := 7, id := 1, seller_id := 2,
            price := 10 }], fun n => if n == 2 then some "acct_2" else none⟩
        ⟨true, 20, none⟩ (fun _ => true) 1
        ⟨"cs_8", "paid",
          .cart 1 [{ content_type_id := 7, object_id := 1, quantity := 1,
                     price := (10 : ℚ), seller_id := some 2 }]⟩ "g"
        ⟨[], [], [], [], [], [], 0⟩).1.orders
      = Ecom.St.orders ⟨[], [], [], [], [], [], 0⟩
        ++ [{ id := 0, user_id := 1, order_number := "g",
              total_amount := Ecom.cartTotal
                [{ content_type_id := 7, object_id := 1, quantity := 1,
                   price := (10 : ℚ), seller_id := some 2 }],
              status := "completed", stripe_session_id := some "cs_8" }]
    ∧ (Ecom.purchase_success_callback
        ⟨[{ ptype := "book", content_type_id := 7, id := 1, seller_id := 2,
            price := 10 }], fun n => if n == 2 then some "acct_2" else none⟩
        ⟨true, 20, none⟩ (fun _ => true) 1
        ⟨"cs_8", "paid",
          .cart 1 [{ content_type_id := 7, object_id := 1, quantity := 1,
                     price := (10 : ℚ), seller_id := some 2 }]⟩ "g"
        ⟨[], [], [], [], [], [], 0⟩).1.orderItems
      = (Ecom.purchase_success_callback
          ⟨[{ ptype := "book", content_type_id := 7, id := 1, seller_id := 2,
              price := 10 }], fun n => if n == 2 then some "acct_2" else none⟩
          ⟨true, 20, none⟩ (fun _ => false) 1
          ⟨"cs_8", "paid",
            .cart 1 [{ content_type_id := 7, object_id := 1, quantity := 1,
                       price := (10 : ℚ), seller_id := some 2 }]⟩ "g"
          ⟨[], [], [], [], [], [], 0⟩).1.orderItems
    ∧ Ecom.attemptedTransfers
        (Ecom.purchase_success_callback
          ⟨[{ ptype := "book", content_type_id := 7, id := 1, seller_id := 2,
              price := 10 }], fun n => if n == 2 then some "acct_2" else none⟩
          ⟨true, 20, none⟩ (fun _ => true) 1
          ⟨"cs_8", "paid",
            .cart 1 [{ content_type_id := 7, object_id := 1, quantity := 1,
                       price := (10 : ℚ), seller_id := some 2 }]⟩ "g"
          ⟨[], [], [], [], [], [], 0⟩).1
      = Ecom.attemptedTransfers
          (Ecom.purchase_success_callback
            ⟨[{ ptype := "book", content_type_id := 7, id := 1, seller_id := 2,
                price := 10 }],
              fun n => if n == 2 then some "acct_2" else none⟩
            ⟨true, 20, none⟩ (fun _ => false) 1
            ⟨"cs_8", "paid",
              .cart 1 [{ content_type_id := 7, object_id := 1, quantity := 1,
                         price := (10 : ℚ), seller_id := some 2 }]⟩ "g"
            ⟨[], [], [], [], [], [], 0⟩).1
    ∧ (Ecom.purchase_success_callback
        ⟨[{ ptype := "book", content_type_id := 7, id := 1, seller_id := 2,
            price := 10 }], fun n => if n == 2 then some "acct_2" else none⟩
        ⟨true, 20, none⟩ (fun _ => true) 1
        ⟨"cs_8", "paid",
          .cart 1 [{ content_type_id := 7, object_id := 1, quantity := 1,
                     price := (10 : ℚ), seller_id := some 2 }]⟩ "g"
        ⟨[], [], [], [], [], [], 0⟩).2 = .ok "g") :=
  ⟨⟨by with_unfolding_all decide, by with_unfolding_all decide⟩,
    C8_transfer_failures_isolated
      ⟨[{ ptype := "book", content_type_id := 7, id := 1, seller_id := 2,
          price := 10 }], fun n => if n == 2 then some "acct_2" else none⟩
      ⟨true, 20, none⟩ (fun _ => true) (fun _ => false) 1 "cs_8" "g"
      ⟨[], [], [], [], [], [], 0⟩
      [{ content_type_id := 7, object_id := 1, quantity := 1,
         price := (10 : ℚ), seller_id := some 2 }]
      (by with_unfolding_all decide) (by with_unfolding_all decide)⟩

/-- C3 counterexample: with commission enabled at 10%, no platform payee
configured, and a seller who has a payee account, building a checkout
session for a 10-dollar product does NOT fail fast: the builder returns
a session (with the 'platform not configured' warning and no
`payment_intent_data`), not a configuration error. -/
theorem C3_claim_counterexample :
    Ecom.purchase_product ⟨true, 10, none⟩ 1 2 (some "acct_s") 10
      = .session { unit_amount_cents := 1000, commission_amount := 1,
                   payment_intent_data := none } true := by
  with_unfolding_all rfl

/-- C3 (amended): when commission is enabled with a positive commission,
the platform payee id is unset and the seller has a payee account, the
builder emits the configuration warning and STILL creates the checkout
session — but with no `payment_intent_data` at all, so the session
carries no commission split and routes nothing to the seller's account
(the charge stays on the platform account); it does not fail fast. -/
theorem C3_amended_builder_warns_and_builds
    (settings : Ecom.SiteSettingsM) (buyerId sellerId : Nat)
    (account : String) (price : ℚ)
    (hne : buyerId ≠ sellerId)
    (hen : settings.commission_enabled = true)
    (hplat : settings.platform_stripe_account_id = none)
    (hpos : 0 < Ecom.pyInt (Ecom.get_commission_amount true
        settings.commission_percentage price * 100)) :
    Ecom.purchase_product settings buyerId sellerId (some account) price
      = .session { unit_amount_cents := Ecom.pyInt (price * 100),
                   commission_amount := Ecom.get_commission_amount true
                     settings.commission_percentage price,
                   payment_intent_data := none } true := by
  unfold Ecom.purchase_product
  rw [beq_eq_false_iff_ne.mpr hne]
  simp only [Bool.false_eq_true, if_false]
  rw [hen, hplat]
  rw [if_pos ⟨rfl, hpos⟩]

theorem C3_witness :
    (1 : Nat) ≠ 2
    ∧ (Ecom.SiteSettingsM.commission_enabled ⟨true, 10, none⟩) = true
    ∧ (Ecom.SiteSettingsM.platform_stripe_account_id ⟨true, 10, none⟩) = none
    ∧ 0 < Ecom.pyInt (Ecom.get_commission_amount true
        (Ecom.SiteSettingsM.commission_percentage ⟨true, 10, none⟩) 10 * 100)
    ∧ Ecom.purchase_product ⟨true, 10, none⟩ 1 2 (some "acct_w") 10
      = .session { unit_amount_cents := Ecom.pyInt (10 * 100),
                   commission_amount := Ecom.get_commission_amount true
                     (Ecom.SiteSettingsM.commission_percentage ⟨true, 10, none⟩) 10,
                   payment_intent_data := none } true :=
  ⟨by decide, by decide, by decide, by with_unfolding_all decide,
    C3_amended_builder_warns_and_builds ⟨true, 10, none⟩ 1 2 "acct_w" 10
      (by decide) (by decide) (by decide) (by with_unfolding_all decide)⟩
